import Mathlib

/-!
Verification of the URL-to-configuration translator of django-service-urls.

The development shallowly embeds the parsing engine (`parse.py`), the scheme
registry (`base.py`) and the generic configuration builders of the database and
cache services (`services/database.py`, `services/cache.py`).  Strings are
handled through their character lists with structural recursion only, so every
definition evaluates on concrete inputs inside the kernel.  The embedding
covers the ASCII, bracket-free inputs the theorems exercise; stdlib routines
(`urlsplit`, `unquote`, `parse_qs`, `int`) are modelled to CPython behaviour on
those inputs.
-/

namespace ServiceUrls

/-- ASCII whitespace accepted around the digits by Python's int() conversion. -/
def isPySpace (c : Char) : Bool :=
  c = ' ' || c = '\t' || c = '\n' || c = '\r' || c = '\x0b' || c = '\x0c'

/-- Numeric value of an ASCII decimal digit character. -/
def digitVal (c : Char) : Nat := c.toNat - 48

/-- Accumulate the decimal value of the remaining digit characters, allowing a
single underscore between two digits as Python's int() does. -/
def pyDigitsAux (acc : Nat) : List Char → Option Nat
  | [] => some acc
  | '_' :: c :: rest => if c.isDigit then pyDigitsAux (acc * 10 + digitVal c) rest else none
  | ['_'] => none
  | c :: rest => if c.isDigit then pyDigitsAux (acc * 10 + digitVal c) rest else none

/-- A nonempty digit run (first character must be a digit, not an underscore). -/
def pyIntDigits : List Char → Option Nat
  | [] => none
  | c :: rest => if c.isDigit then pyDigitsAux (digitVal c) rest else none

/-- Python's int(str) on ASCII input: optional surrounding whitespace, an
optional sign, then base-10 digits with single underscores between digits;
none when the string does not parse. -/
def pyInt (s : String) : Option Int :=
  let cs := ((s.data.dropWhile isPySpace).reverse.dropWhile isPySpace).reverse
  match cs with
  | '+' :: rest => (pyIntDigits rest).map (fun n => (n : Int))
  | '-' :: rest => (pyIntDigits rest).map (fun n => -(n : Int))
  | rest => (pyIntDigits rest).map (fun n => (n : Int))

/-- ASCII lowercase of a string (str.lower for the ASCII inputs used here). -/
def strLower (s : String) : String := String.mk (s.data.map Char.toLower)

/-- ASCII uppercase of a string (str.upper for the ASCII inputs used here). -/
def strUpper (s : String) : String := String.mk (s.data.map Char.toUpper)

/-- Values stored in parsed configuration mappings: Python str, int, bool,
None, list and dict values, dicts being insertion-ordered association lists. -/
inductive Value where
  | vStr (s : String)
  | vInt (n : Int)
  | vBool (b : Bool)
  | vNone
  | vList (elems : List Value)
  | vDict (entries : List (String × Value))

/-- The five true literals of _cast_value. -/
def trueLiterals : List String := ["true", "t", "1", "yes", "y"]

/-- The five false literals of _cast_value. -/
def falseLiterals : List String := ["false", "f", "0", "no", "n"]

/-- _cast_value from parse.py: boolean literals (case-insensitive), null,
base-10 integers, and every other string unchanged. -/
def castValue (value : String) : Value :=
  match strLower value with
  | "true" | "t" | "1" | "yes" | "y" => .vBool true
  | "false" | "f" | "0" | "no" | "n" => .vBool false
  | "null" => .vNone
  | _ =>
    match pyInt value with
    | some n => .vInt n
    | none => .vStr value

/-- str.partition at the first occurrence of a one-character separator:
(before, found, after); when the separator is absent, (s, false, ""). -/
def pyPartitionCh (sep : Char) : List Char → List Char × Bool × List Char
  | [] => ([], false, [])
  | c :: rest =>
    if c = sep then ([], true, rest)
    else
      let (b, f, a) := pyPartitionCh sep rest
      (c :: b, f, a)

/-- str.rpartition at the last occurrence of a one-character separator:
(before, found, after); when the separator is absent, ("", false, s). -/
def pyRpartitionCh (sep : Char) (cs : List Char) : List Char × Bool × List Char :=
  match pyPartitionCh sep cs.reverse with
  | (b, true, a) => (a.reverse, true, b.reverse)
  | (_, false, _) => ([], false, cs)

/-- Helper for str.split on a one-character separator. -/
def strSplitChAux (sep : Char) (acc : List Char) : List Char → List (List Char)
  | [] => [acc.reverse]
  | c :: rest =>
    if c = sep then acc.reverse :: strSplitChAux sep [] rest
    else strSplitChAux sep (c :: acc) rest

/-- str.split(sep) for a one-character separator: no collapsing of empty
segments, and the empty string yields [""]. -/
def strSplitCh (sep : Char) (cs : List Char) : List (List Char) := strSplitChAux sep [] cs

/-- Whether a character occurs in the list (the `in` test on a str). -/
def containsCh (sep : Char) : List Char → Bool
  | [] => false
  | c :: rest => c = sep || containsCh sep rest

/-- Value of a hexadecimal digit character, none otherwise. -/
def hexDigitVal (c : Char) : Option Nat :=
  if c.isDigit then some (c.toNat - 48)
  else if 'a' ≤ c ∧ c ≤ 'f' then some (c.toNat - 87)
  else if 'A' ≤ c ∧ c ≤ 'F' then some (c.toNat - 55)
  else none

/-- Percent-decoding of %XX escapes, modelling urllib.parse.unquote on the
ASCII sequences this development evaluates; invalid escapes pass through. -/
def unquoteCh : List Char → List Char
  | '%' :: a :: b :: rest =>
    match hexDigitVal a, hexDigitVal b with
    | some x, some y => Char.ofNat (16 * x + y) :: unquoteCh rest
    | _, _ => '%' :: unquoteCh (a :: b :: rest)
  | c :: rest => c :: unquoteCh rest
  | [] => []

/-- urllib.parse.unquote on strings. -/
def pyUnquote (s : String) : String := String.mk (unquoteCh s.data)

/-- A scheme character of urlsplit: ASCII letters, digits, +, - and dot. -/
def isSchemeChar (c : Char) : Bool :=
  c.isAlpha || c.isDigit || c = '+' || c = '-' || c = '.'

/-- Split at the first colon, returning the text before it and the rest. -/
def splitSchemeAux (seen : List Char) : List Char → Option (List Char × List Char)
  | [] => none
  | c :: rest => if c = ':' then some (seen.reverse, rest) else splitSchemeAux (c :: seen) rest

/-- Scheme extraction of urlsplit: the text before the first colon counts as
the scheme when it is nonempty, starts with an ASCII letter and consists of
scheme characters; it is lowercased and the colon consumed.  Otherwise no
scheme is removed. -/
def pySplitScheme (cs : List Char) : List Char × List Char :=
  match splitSchemeAux [] cs with
  | some (tok, rest) =>
    match tok with
    | [] => ([], cs)
    | c0 :: _ => if c0.isAlpha && tok.all isSchemeChar then (tok.map Char.toLower, rest) else ([], cs)
  | none => ([], cs)

/-- The record urlsplit returns. -/
structure SplitResult where
  scheme : String
  netloc : String
  path : String
  query : String
  fragment : String
deriving Repr, DecidableEq

/-- urlsplit input cleaning: strip leading C0-control-or-space characters,
then remove every tab, carriage return and line feed. -/
def urlsplitClean (cs : List Char) : List Char :=
  (cs.dropWhile (fun c => c.toNat ≤ 32)).filter (fun c => !(c = '\t' || c = '\r' || c = '\n'))

/-- Whether a character ends the netloc segment. -/
def isNetlocEnd (c : Char) : Bool := c = '/' || c = '?' || c = '#'

/-- urllib.parse.urlsplit for ASCII, bracket-free inputs: extract the scheme,
then the netloc after a leading // up to the next /, ? or #, then split the
fragment at the first # and the query at the first ?. -/
def pyUrlsplit (url : String) : SplitResult :=
  let cs := urlsplitClean url.data
  let (schemeTok, rest) := pySplitScheme cs
  let (netloc, rest2) :=
    match rest with
    | '/' :: '/' :: r => (r.takeWhile (fun c => !isNetlocEnd c), r.dropWhile (fun c => !isNetlocEnd c))
    | other => ([], other)
  let (beforeFrag, _, fragment) := pyPartitionCh '#' rest2
  let (path, _, query) := pyPartitionCh '?' beforeFrag
  { scheme := String.mk schemeTok
    netloc := String.mk netloc
    path := String.mk path
    query := String.mk query
    fragment := String.mk fragment }

/-- Exceptions the embedded code can raise: a ValidationError carrying a
message, a ValidationError carrying a key-to-message dict, or a plain
ValueError (such as the one int() raises), which is not a ValidationError. -/
inductive PErr where
  | validation (message : String)
  | validationDict (errors : List (String × String))
  | pyValueError (message : String)
deriving Repr, DecidableEq

/-- Whether the exception is a ValidationError instance. -/
def PErr.isValidationErr : PErr → Bool
  | .validation _ => true
  | .validationDict _ => true
  | .pyValueError _ => false

/-- The message ValidationError aggregation stores for a caught error
(message-carrying errors are the only ones the single parser raises). -/
def PErr.flatMessage : PErr → String
  | .validation m => m
  | .validationDict _ => ""
  | .pyValueError m => m

/-- Python repr of a string without quotes or escapes in it: the text wrapped
in single quotes. -/
def pyRepr (s : String) : String := "'" ++ s ++ "'"

/-- _get_host_and_port from parse.py: strip credentials at the last @, handle
a bracketed host, take the port after the colon, and cast a nonempty port with
int(), which raises ValueError when it is not numeric. -/
def getHostAndPort (netloc : String) : Except PErr (String × Option Int) :=
  let (_, _, hostinfo) := pyRpartitionCh '@' netloc.data
  let (_, haveOpenBr, bracketed) := pyPartitionCh '[' hostinfo
  let (hostname, port) :=
    if haveOpenBr then
      let (h, _, afterBr) := pyPartitionCh ']' bracketed
      let (_, _, p) := pyPartitionCh ':' afterBr
      (h, p)
    else
      let (h, _, p) := pyPartitionCh ':' hostinfo
      (h, p)
  if port.isEmpty then .ok (String.mk hostname, none)
  else
    match pyInt (String.mk port) with
    | some n => .ok (String.mk hostname, some n)
    | none =>
      .error (.pyValueError ("invalid literal for int() with base 10: " ++ pyRepr (String.mk port)))

/-- SplitResult.username and SplitResult.password: userinfo is the text before
the last @ when one exists; the username is the part before its first colon
and the password the part after it (None when there is no colon). -/
def netlocUserinfo (netloc : String) : Option String × Option String :=
  match pyRpartitionCh '@' netloc.data with
  | (userinfo, true, _) =>
    match pyPartitionCh ':' userinfo with
    | (username, true, password) => (some (String.mk username), some (String.mk password))
    | (username, false, _) => (some (String.mk username), none)
  | (_, false, _) => (none, none)

/-- One name=value pair of parse_qsl with keep_blank_values: split at the
first '=', turn '+' into a space, then percent-decode name and value. -/
def parseQsPair (nv : List Char) : String × String :=
  let (name, _, value) := pyPartitionCh '=' nv
  (String.mk (unquoteCh (name.map (fun c => if c = '+' then ' ' else c))),
   String.mk (unquoteCh (value.map (fun c => if c = '+' then ' ' else c))))

/-- Append a value to the list stored under a key, keeping the dict insertion
order of parse_qs: the first occurrence of a key fixes its position. -/
def qsGroupAdd (acc : List (String × List String)) (k : String) (v : String) :
    List (String × List String) :=
  match acc with
  | [] => [(k, [v])]
  | (k0, vs) :: rest => if k0 = k then (k0, vs ++ [v]) :: rest else (k0, vs) :: qsGroupAdd rest k v

/-- parse_qs(data, keep_blank_values=True): split on '&', drop empty chunks,
then group the decoded values by key in first-occurrence order. -/
def pyParseQs (data : String) : List (String × List String) :=
  ((strSplitCh '&' data.data).filter (fun nv => !nv.isEmpty)).foldl
    (fun acc nv =>
      let (k, v) := parseQsPair nv
      qsGroupAdd acc k v) []

/-- Ordered-dict lookup: the value stored under the first matching key. -/
def pyLookup (d : List (String × Value)) (k : String) : Option Value :=
  match d with
  | [] => none
  | (k0, v0) :: rest => if k0 = k then some v0 else pyLookup rest k

/-- Ordered-dict assignment: replace in place when the key exists, keeping its
position, else append the new pair at the end. -/
def pyDictSet (d : List (String × Value)) (k : String) (v : Value) : List (String × Value) :=
  match d with
  | [] => [(k, v)]
  | (k0, v0) :: rest => if k0 = k then (k0, v) :: rest else (k0, v0) :: pyDictSet rest k v

/-- Ordered-dict removal of a key (dict.pop with the key present or absent). -/
def pyDictPop (d : List (String × Value)) (k : String) : List (String × Value) :=
  match d with
  | [] => []
  | (k0, v0) :: rest => if k0 = k then rest else (k0, v0) :: pyDictPop rest k

/-- _set_nested_option on the pre-split key parts: walk or create the nested
dicts, replacing a non-dict intermediate value with a fresh dict, and set the
final part inside the innermost dict. -/
def setNestedParts : List (String × Value) → List String → Value → List (String × Value)
  | options, [], _ => options
  | options, [last], v => pyDictSet options last v
  | options, part :: rest, v =>
    let sub :=
      match pyLookup options part with
      | some (.vDict d) => d
      | _ => []
    pyDictSet options part (.vDict (setNestedParts sub rest v))

/-- _set_nested_option from parse.py: split the key on dots and set the value
through the nested dicts. -/
def setNestedOption (options : List (String × Value)) (key : String) (value : Value) :
    List (String × Value) :=
  setNestedParts options ((strSplitCh '.' key.data).map String.mk) value

/-- _parse_querystring from parse.py: parse_qs, then per-key type casting,
a list of cast values for repeated keys, and dotted keys expanded into nested
dicts; the result dict is filled in first-occurrence key order. -/
def parseQuerystring (data : String) : List (String × Value) :=
  (pyParseQs data).foldl
    (fun result kv =>
      let processed : Value :=
        if kv.2.length > 1 then .vList (kv.2.map castValue)
        else castValue (kv.2.getLastD "")
      if containsCh '.' kv.1.data then setNestedOption result kv.1 processed
      else pyDictSet result kv.1 processed) []

/-- The location field of UrlInfo: a single netloc string, or the list of
comma-separated netloc segments in multi-host mode. -/
inductive LocVal where
  | str (s : String)
  | list (hosts : List String)
deriving Repr, DecidableEq

/-- The UrlInfo dataclass of parse.py with its field defaults. -/
structure UrlInfo where
  scheme : String := ""
  username : Option String := none
  password : Option String := none
  hostname : Option String := none
  port : Option Int := none
  path : String := ""
  fullpath : String := ""
  query : List (String × Value) := []
  location : LocVal := .str ""
  fragment : List (String × Value) := []

/-- The pattern unquote(x) if x else x applied to an optional string field:
None and the empty string pass through, anything else is percent-decoded. -/
def optTruthyUnquote : Option String → Option String
  | none => none
  | some s => if s = "" then some s else some (pyUnquote s)

/-- The slice s[1:]: the string without its first character. -/
def strDrop1 (s : String) : String := String.mk s.data.tail

/-- parse_url from parse.py.  An already-parsed UrlInfo is returned as-is.
A string is urlsplit; in multi-host mode a netloc with a comma becomes the
verbatim location list and hostname/port stay None, otherwise the netloc is
decomposed by _get_host_and_port (whose int() port cast can raise); username,
password and hostname are percent-decoded when truthy, the path loses its
leading character, and query and fragment run through _parse_querystring. -/
def parseUrl (url : String ⊕ UrlInfo) (multipleNetloc : Bool) : Except PErr UrlInfo :=
  match url with
  | .inr info => .ok info
  | .inl s =>
    let parsed := pyUrlsplit s
    let netlocs : List String :=
      if multipleNetloc then (strSplitCh ',' parsed.netloc.data).map String.mk else []
    let hp : Except PErr (Option String × Option Int) :=
      if netlocs.length > 1 then .ok (none, none)
      else (getHostAndPort parsed.netloc).map (fun q => (some q.1, q.2))
    hp.map fun q =>
      let userinfo := netlocUserinfo parsed.netloc
      { scheme := parsed.scheme
        username := optTruthyUnquote userinfo.1
        password := optTruthyUnquote userinfo.2
        hostname := optTruthyUnquote q.1
        port := q.2
        path := if parsed.path ≠ "" then pyUnquote (strDrop1 parsed.path) else strDrop1 parsed.path
        fullpath := if parsed.path ≠ "" then pyUnquote parsed.path else parsed.path
        query := parseQuerystring parsed.query
        location := if netlocs.length > 1 then .list netlocs else .str parsed.netloc
        fragment := parseQuerystring parsed.fragment }

/-- A configuration mapping produced by a transform. -/
abbrev ConfigDict := List (String × Value)

/-- A scheme registration of base.py: the engine string and the transform.
The transform of the source receives (self, engine, scheme, url); the self
argument is the service the function closes over, so the model's callbacks
take (engine, scheme, url). -/
structure SchemeReg where
  engine : String
  callback : String → String → String → Except PErr ConfigDict

/-- A Service instance: its scheme registry, keyed by scheme token. -/
structure Service where
  schemes : List (String × SchemeReg)

/-- Registry lookup by scheme token. -/
def regLookup (l : List (String × SchemeReg)) (k : String) : Option SchemeReg :=
  match l with
  | [] => none
  | (k0, r) :: rest => if k0 = k then some r else regLookup rest k

/-- Service._parse from base.py on a string: the empty string yields an empty
dict; a string whose urlsplit scheme is empty raises a ValidationError naming
the input; an unregistered scheme raises a ValidationError naming the scheme;
otherwise the registered callback runs on (engine, scheme, data). -/
def Service.parseSingle (svc : Service) (data : String) : Except PErr ConfigDict :=
  if data = "" then .ok []
  else
    let scheme := (pyUrlsplit data).scheme
    if scheme = "" then
      .error (.validation (pyRepr data ++ " is invalid, only full dsn urls (scheme://host...) are allowed"))
    else
      match regLookup svc.schemes scheme with
      | none => .error (.validation (pyRepr (scheme ++ "://") ++ " scheme is not registered"))
      | some reg => reg.callback reg.engine scheme data

/-- One entry value of a batch-mode input mapping: an already-structured
config dict, or a URL string. -/
inductive ConfigEntry where
  | str (s : String)
  | dict (d : ConfigDict)

/-- The argument of Service.parse: a single string or a mapping. -/
inductive ParseInput where
  | str (s : String)
  | dict (entries : List (String × ConfigEntry))

/-- The result of Service.parse: a single config or a mapping of configs. -/
inductive ParseOutput where
  | single (config : ConfigDict)
  | batch (configs : List (String × ConfigDict))

/-- The batch loop of Service.parse: dict values pass through, string values
are parsed; a ValidationError is recorded under its key and the loop goes on,
any other exception propagates at once; at the end a nonempty error dict is
raised as one aggregated ValidationError, else the parsed mapping returns. -/
def Service.parseBatchGo (svc : Service) :
    List (String × ConfigEntry) → List (String × ConfigDict) → List (String × String) →
    Except PErr (List (String × ConfigDict))
  | [], parsedAcc, errAcc =>
    if errAcc.isEmpty then .ok parsedAcc else .error (.validationDict errAcc)
  | (k, .dict d) :: rest, parsedAcc, errAcc =>
    svc.parseBatchGo rest (parsedAcc ++ [(k, d)]) errAcc
  | (k, .str s) :: rest, parsedAcc, errAcc =>
    match svc.parseSingle s with
    | .ok cfg => svc.parseBatchGo rest (parsedAcc ++ [(k, cfg)]) errAcc
    | .error e =>
      if e.isValidationErr then svc.parseBatchGo rest parsedAcc (errAcc ++ [(k, e.flatMessage)])
      else .error e

/-- Service.parse from base.py: batch mode on a mapping, single mode on a
string (the invalid-input-type branch is outside the typed model). -/
def Service.parse (svc : Service) : ParseInput → Except PErr ParseOutput
  | .dict entries => (svc.parseBatchGo entries [] []).map ParseOutput.batch
  | .str s => (svc.parseSingle s).map ParseOutput.single

/-- The outcome batch mode assigns one entry: dict values pass through
unchanged, string values go through the single-mode parser. -/
def entryOutcome (svc : Service) : ConfigEntry → Except PErr ConfigDict
  | .dict d => .ok d
  | .str s => svc.parseSingle s

/-- The key-and-message pair one entry contributes to the aggregated error
dict (none when the entry succeeds). -/
def entryErr (svc : Service) (p : String × ConfigEntry) : Option (String × String) :=
  match entryOutcome svc p.2 with
  | .error e => some (p.1, e.flatMessage)
  | .ok _ => none

/-- The key-and-config pair one entry contributes to the successful result
(none when the entry fails). -/
def entryOk (svc : Service) (p : String × ConfigEntry) : Option (String × ConfigDict) :=
  match entryOutcome svc p.2 with
  | .ok c => some (p.1, c)
  | .error _ => none

/-- Batch behaviour as the spec words it: collect the failing keys in order
into one aggregated ValidationError and return no partial mapping; when no
entry fails, map every key to its parsed or passed-through configuration. -/
def batchSpec (svc : Service) (entries : List (String × ConfigEntry)) :
    Except PErr (List (String × ConfigDict)) :=
  let errs := entries.filterMap (entryErr svc)
  if errs.isEmpty then .ok (entries.filterMap (entryOk svc))
  else .error (.validationDict errs)

/-- Whether an entry's outcome is an exception that escapes the per-key
aggregation (anything that is not a ValidationError). -/
def outcomeEscapes (svc : Service) (p : String × ConfigEntry) : Bool :=
  match entryOutcome svc p.2 with
  | .error e => !e.isValidationErr
  | .ok _ => false

/-- The dict value of an optional string field (Python None or str). -/
def optStrValue : Option String → Value
  | none => .vNone
  | some s => .vStr s

/-- The PORT value: parsed.port or "" (None and 0 are falsy and give ""). -/
def portValue : Option Int → Value
  | none => .vStr ""
  | some n => if n = 0 then .vStr "" else .vInt n

/-- The fragment merge shared by the generic config builders:
config.update with every fragment pair whose key is not already in config. -/
def mergeFragment (config : ConfigDict) (frag : List (String × Value)) : ConfigDict :=
  config ++ frag.filter (fun kv => (pyLookup config kv.1).isNone)

/-- DatabaseService.config_from_url before its fragment merge, on an
already-parsed UrlInfo. -/
def dbBaseConfig (engine : String) (parsed : UrlInfo) : ConfigDict :=
  [("ENGINE", .vStr engine),
   ("NAME", .vStr (pyUnquote parsed.path)),
   ("USER", .vStr (pyUnquote (parsed.username.getD ""))),
   ("PASSWORD", .vStr (pyUnquote (parsed.password.getD ""))),
   ("HOST", optStrValue parsed.hostname),
   ("PORT", portValue parsed.port),
   ("OPTIONS", .vDict parsed.query)]

/-- DatabaseService.config_from_url from services/database.py on an
already-parsed UrlInfo: the generic mapping, then the fragment merge. -/
def dbConfigFromUrl (engine : String) (parsed : UrlInfo) : ConfigDict :=
  mergeFragment (dbBaseConfig engine parsed) parsed.fragment

/-- A database-style transform: parse the URL then build the generic config
(the shape of a registration whose callback calls config_from_url directly). -/
def dbCallback (engine _scheme url : String) : Except PErr ConfigDict :=
  (parseUrl (.inl url) false).map (dbConfigFromUrl engine)

/-- The location entries of CacheService.config_from_url: the whole location
in multi-host mode when truthy, else hostname with an optional port. -/
def cacheLocation (parsed : UrlInfo) (multipleNetloc : Bool) : ConfigDict :=
  let locTruthy : Bool :=
    match parsed.location with
    | .str s => !s.isEmpty
    | .list l => !l.isEmpty
  if multipleNetloc && locTruthy then
    match parsed.location with
    | .str s => [("LOCATION", .vStr s)]
    | .list l => [("LOCATION", .vList (l.map .vStr))]
  else
    match parsed.hostname with
    | some h =>
      if h ≠ "" then
        match parsed.port with
        | some p =>
          if p ≠ 0 then [("LOCATION", .vStr (h ++ ":" ++ toString p))] else [("LOCATION", .vStr h)]
        | none => [("LOCATION", .vStr h)]
      else []
    | none => []

/-- One step of the promotion loop of CacheService.config_from_url: a simple
(non-dict) value under the key is popped out of the query and stored in the
config under the uppercased key. -/
def promoteKey (k : String) (state : ConfigDict × List (String × Value)) :
    ConfigDict × List (String × Value) :=
  match pyLookup state.2 k with
  | some (.vDict _) => state
  | some v => (pyDictSet state.1 (strUpper k) v, pyDictPop state.2 k)
  | none => state

/-- CacheService.config_from_url before its fragment merge: BACKEND, the
location, the promoted timeout/key_prefix/version keys, then OPTIONS holding
the remaining query. -/
def cacheBaseConfig (engine : String) (parsed : UrlInfo) (multipleNetloc : Bool) : ConfigDict :=
  let config0 : ConfigDict := [("BACKEND", .vStr engine)] ++ cacheLocation parsed multipleNetloc
  let st := promoteKey "version" (promoteKey "key_prefix" (promoteKey "timeout" (config0, parsed.query)))
  st.1 ++ [("OPTIONS", .vDict st.2)]

/-- CacheService.config_from_url from services/cache.py on an already-parsed
UrlInfo: the base mapping, then the fragment merge. -/
def cacheConfigFromUrl (engine : String) (parsed : UrlInfo) (multipleNetloc : Bool) : ConfigDict :=
  mergeFragment (cacheBaseConfig engine parsed multipleNetloc) parsed.fragment

/-- A registry with no registrations. -/
def svcEmpty : Service := ⟨[]⟩

/-- A demo registry with a database-style registration for the scheme db. -/
def svcDb : Service :=
  ⟨[("db", ⟨"django.db.backends.postgresql", dbCallback⟩)]⟩

/-- Modelled from the spec: the Service.validate operation is not present in
the sources under src (only its caller, service_urls/patch.py line 51, is);
per the spec it returns the scheme token if present and syntactically valid,
else none. -/
def Service.validate (_svc : Service) (data : String) : Option String :=
  let scheme := (pyUrlsplit data).scheme
  if scheme = "" then none else some scheme

/-- Whether the first list is a prefix of the second. -/
def isPrefixCh : List Char → List Char → Bool
  | [], _ => true
  | _ :: _, [] => false
  | a :: as, b :: bs => a = b && isPrefixCh as bs

/-- Whether the second list occurs as a contiguous substring of the first. -/
def containsSubstrCh (hay : List Char) (pat : List Char) : Bool :=
  match hay with
  | [] => pat.isEmpty
  | _ :: rest => isPrefixCh pat hay || containsSubstrCh rest pat

/-- The literal reading of carrying a scheme:// prefix: a valid nonempty
scheme token followed by the three characters ://. -/
def hasSchemeSlashSlash (s : String) : Bool :=
  match pySplitScheme s.data with
  | ([], _) => false
  | (_ :: _, rest) => isPrefixCh ['/', '/'] rest

/-- A UrlInfo whose fragment tries to add one new key and override ENGINE. -/
def fragDemoInfo : UrlInfo :=
  { fragment := [("conn_max_age", .vInt 600), ("ENGINE", .vStr "elsewhere")] }

/-- A batch input with a good URL, a pass-through dict and two broken URLs. -/
def batchDemoEntries : List (String × ConfigEntry) :=
  [("first", .str "db://user:pass@localhost:5432/dbname"),
   ("second", .dict [("ENGINE", .vStr "django.db.backends.sqlite3")]),
   ("bad", .str "nourl"),
   ("worse", .str "foo://x")]

/-! ## Helper lemmas -/

theorem pyLookup_append_of_isSome (l1 l2 : List (String × Value)) (k : String)
    (h : (pyLookup l1 k).isSome = true) : pyLookup (l1 ++ l2) k = pyLookup l1 k := by
  induction l1 with
  | nil => simp [pyLookup] at h
  | cons p rest ih =>
    obtain ⟨k0, v0⟩ := p
    by_cases hk : k0 = k
    · simp [pyLookup, hk]
    · simp only [pyLookup, hk, if_false, List.cons_append, if_neg hk] at h ⊢
      exact ih h

theorem pyLookup_append_of_none (l1 l2 : List (String × Value)) (k : String)
    (h : pyLookup l1 k = none) : pyLookup (l1 ++ l2) k = pyLookup l2 k := by
  induction l1 with
  | nil => simp [pyLookup]
  | cons p rest ih =>
    obtain ⟨k0, v0⟩ := p
    by_cases hk : k0 = k
    · simp [pyLookup, hk] at h
    · simp only [pyLookup, if_neg hk, List.cons_append] at h ⊢
      exact ih h

theorem pyLookup_filter_key (q : String → Bool) (l : List (String × Value)) (k : String) :
    pyLookup (l.filter (fun kv => q kv.1)) k = if q k then pyLookup l k else none := by
  induction l with
  | nil => simp [pyLookup]
  | cons p rest ih =>
    obtain ⟨k0, v0⟩ := p
    by_cases hq : q k0
    · by_cases hk : k0 = k
      · subst hk
        simp [List.filter, hq, pyLookup]
      · simp [List.filter, hq, pyLookup, hk, ih]
    · by_cases hk : k0 = k
      · subst hk
        simp only [List.filter, hq]
        rw [ih]
        simp [hq, Bool.false_eq_true, if_false]
      · simp [List.filter, hq, pyLookup, hk, ih]

theorem mergeFragment_lookup (config frag : List (String × Value)) (k : String) :
    ((pyLookup config k).isSome = true →
      pyLookup (mergeFragment config frag) k = pyLookup config k) ∧
    (pyLookup config k = none →
      pyLookup (mergeFragment config frag) k = pyLookup frag k) := by
  constructor
  · intro h
    exact pyLookup_append_of_isSome _ _ _ h
  · intro h
    unfold mergeFragment
    rw [pyLookup_append_of_none _ _ _ h]
    rw [pyLookup_filter_key (fun k0 => (pyLookup config k0).isNone) frag k]
    simp [h]

/-! ## Claim theorems -/

/-- C1: parse_url is idempotent — an already-parsed UrlInfo passed back into
parse_url is returned as that very record, never re-parsed, so composing
parse_url with itself gives the same result as one application, for URL
strings and UrlInfo inputs alike and whatever the multiple_netloc flags. -/
theorem parse_url_idempotent :
    (∀ (u : UrlInfo) (m : Bool), parseUrl (.inr u) m = .ok u) ∧
    (∀ (x : String ⊕ UrlInfo) (m m2 : Bool),
      Except.bind (parseUrl x m) (fun u => parseUrl (.inr u) m2) = parseUrl x m) := by
  refine ⟨fun u m => rfl, fun x m m2 => ?_⟩
  cases h : parseUrl x m with
  | ok u => simp [Except.bind, parseUrl]
  | error e => simp [Except.bind]

/-- C5 counterexample: the querystring a.b.c=1 does produce the nested shape,
but its leaf is the boolean true (the value 1 falls under the boolean cast
rule), not the integer 1 the claim names. -/
theorem nested_value_one_is_bool :
    parseQuerystring "a.b.c=1" = [("a", .vDict [("b", .vDict [("c", .vBool true)])])] ∧
    parseQuerystring "a.b.c=1" ≠ [("a", .vDict [("b", .vDict [("c", .vInt 1)])])] := by
  refine ⟨rfl, fun h => ?_⟩
  rw [show parseQuerystring "a.b.c=1" = [("a", .vDict [("b", .vDict [("c", .vBool true)])])]
    from rfl] at h
  simp at h

/-- C5 amended: a dotted key expands to a nested mapping — a.b.c=1 gives
the leaf boolean true per the cast rule and a.b.c=2 gives the integer 2;
dotted keys sharing a prefix merge into one nested mapping; and when a flat
key and a dotted key collide on a path segment the later-declared form wins
silently, in the order the keys were encountered. -/
theorem nested_keys_spec :
    parseQuerystring "a.b.c=1" = [("a", .vDict [("b", .vDict [("c", .vBool true)])])] ∧
    parseQuerystring "a.b.c=2" = [("a", .vDict [("b", .vDict [("c", .vInt 2)])])] ∧
    parseQuerystring "a.b=2&a.c=3" = [("a", .vDict [("b", .vInt 2), ("c", .vInt 3)])] ∧
    parseQuerystring "pool=legacy&pool.min_size=4" =
      [("pool", .vDict [("min_size", .vInt 4)])] ∧
    parseQuerystring "pool.min_size=4&pool=legacy" = [("pool", .vStr "legacy")] :=
  ⟨rfl, rfl, rfl, rfl, rfl⟩

/-- C7: credential stripping splits the netloc only on its final @, so the
URL scheme://user:pa@ss@host:1234/db parses with username user, password
pa@ss (the literal @ preserved), hostname host and integer port 1234. -/
theorem credential_split_on_final_at :
    netlocUserinfo "user:pa@ss@host:1234" = (some "user", some "pa@ss") ∧
    getHostAndPort "user:pa@ss@host:1234" = .ok ("host", some 1234) ∧
    parseUrl (.inl "scheme://user:pa@ss@host:1234/db") false =
      .ok { scheme := "scheme", username := some "user", password := some "pa@ss",
            hostname := some "host", port := some 1234, path := "db", fullpath := "/db",
            query := [], location := .str "user:pa@ss@host:1234", fragment := [] } :=
  ⟨rfl, rfl, rfl⟩

/-- C9: every registry's validate returns the scheme token exactly when the
input carries a syntactically valid scheme and none otherwise, so a plain
backend path is detected and left untouched while a DSN URL is parsed. -/
theorem validate_returns_scheme :
    (∀ (svc : Service) (data : String),
      ((pyUrlsplit data).scheme ≠ "" → svc.validate data = some ((pyUrlsplit data).scheme)) ∧
      ((pyUrlsplit data).scheme = "" → svc.validate data = none)) ∧
    svcEmpty.validate "smtp://localhost:1025" = some "smtp" ∧
    svcEmpty.validate "django.core.mail.backends.smtp.EmailBackend" = none := by
  refine ⟨fun svc data => ⟨fun h => ?_, fun h => ?_⟩, rfl, rfl⟩
  · simp [Service.validate, h]
  · simp [Service.validate, h]

/-- C9 witness: validate applied to a concrete DSN string. -/
theorem validate_returns_scheme_witness :
    (pyUrlsplit "smtp://localhost:1025").scheme ≠ "" ∧
    svcEmpty.validate "smtp://localhost:1025" =
      some ((pyUrlsplit "smtp://localhost:1025").scheme) :=
  ⟨by decide, (validate_returns_scheme.1 svcEmpty "smtp://localhost:1025").1 (by decide)⟩

/-- C10: the port of db://host:abc/name is cast with an unguarded int(),
which raises a plain ValueError — not a ValidationError — so in batch mode
the entry escapes the per-key aggregation and aborts the whole parse call:
even with an earlier entry that failed with an aggregatable ValidationError,
the call raises the ValueError instead of an aggregated error dict. -/
theorem port_cast_escapes_aggregation :
    getHostAndPort "host:abc" =
      .error (.pyValueError "invalid literal for int() with base 10: 'abc'") ∧
    (PErr.pyValueError "invalid literal for int() with base 10: 'abc'").isValidationErr = false ∧
    parseUrl (.inl "db://host:abc/name") false =
      .error (.pyValueError "invalid literal for int() with base 10: 'abc'") ∧
    svcDb.parse (.dict [("broken", .str "nourl"), ("crash", .str "db://host:abc/name")]) =
      .error (.pyValueError "invalid literal for int() with base 10: 'abc'") :=
  ⟨rfl, rfl, rfl, rfl⟩

/-- C8: when a transform builds the generic configuration mapping (database
and cache services alike), every fragment pair whose key is absent from the
mapping is added at the top level with the fragment's value, and every key
the transform already set keeps its value unchanged. -/
theorem fragment_merge_no_override (engine : String) (parsed : UrlInfo) (mn : Bool) (k : String) :
    ((pyLookup (dbBaseConfig engine parsed) k).isSome = true →
      pyLookup (dbConfigFromUrl engine parsed) k = pyLookup (dbBaseConfig engine parsed) k) ∧
    (pyLookup (dbBaseConfig engine parsed) k = none →
      pyLookup (dbConfigFromUrl engine parsed) k = pyLookup parsed.fragment k) ∧
    ((pyLookup (cacheBaseConfig engine parsed mn) k).isSome = true →
      pyLookup (cacheConfigFromUrl engine parsed mn) k =
        pyLookup (cacheBaseConfig engine parsed mn) k) ∧
    (pyLookup (cacheBaseConfig engine parsed mn) k = none →
      pyLookup (cacheConfigFromUrl engine parsed mn) k = pyLookup parsed.fragment k) :=
  ⟨(mergeFragment_lookup (dbBaseConfig engine parsed) parsed.fragment k).1,
   (mergeFragment_lookup (dbBaseConfig engine parsed) parsed.fragment k).2,
   (mergeFragment_lookup (cacheBaseConfig engine parsed mn) parsed.fragment k).1,
   (mergeFragment_lookup (cacheBaseConfig engine parsed mn) parsed.fragment k).2⟩

/-- C8 witness: a fragment adds the absent key conn_max_age but cannot
override the ENGINE key the database transform set. -/
theorem fragment_merge_no_override_witness :
    ((pyLookup (dbBaseConfig "e" fragDemoInfo) "ENGINE").isSome = true ∧
      pyLookup (dbConfigFromUrl "e" fragDemoInfo) "ENGINE" =
        pyLookup (dbBaseConfig "e" fragDemoInfo) "ENGINE") ∧
    (pyLookup (dbBaseConfig "e" fragDemoInfo) "conn_max_age" = none ∧
      pyLookup (dbConfigFromUrl "e" fragDemoInfo) "conn_max_age" =
        pyLookup fragDemoInfo.fragment "conn_max_age") :=
  ⟨⟨rfl, (fragment_merge_no_override "e" fragDemoInfo false "ENGINE").1 rfl⟩,
   ⟨rfl, (fragment_merge_no_override "e" fragDemoInfo false "conn_max_age").2.1 rfl⟩⟩

/-- C2: _cast_value maps (case-insensitively) the true literals to boolean
true, the false literals to boolean false, null to None; any other string is
the base-10 integer it parses as, and otherwise passes through unchanged. -/
theorem cast_value_spec (s : String) :
    (strLower s ∈ trueLiterals → castValue s = .vBool true) ∧
    (strLower s ∈ falseLiterals → castValue s = .vBool false) ∧
    (strLower s = "null" → castValue s = .vNone) ∧
    (strLower s ∉ trueLiterals → strLower s ∉ falseLiterals → strLower s ≠ "null" →
      ((∀ n : Int, pyInt s = some n → castValue s = .vInt n) ∧
       (pyInt s = none → castValue s = .vStr s))) := by
  refine ⟨fun h => ?_, fun h => ?_, fun h => ?_, fun h1 h2 h3 => ⟨fun n hn => ?_, fun hn => ?_⟩⟩
  · simp only [trueLiterals, List.mem_cons, List.mem_singleton, List.not_mem_nil, or_false] at h
    rcases h with h | h | h | h | h <;> (unfold castValue; rw [h]) <;> rfl
  · simp only [falseLiterals, List.mem_cons, List.mem_singleton, List.not_mem_nil, or_false] at h
    rcases h with h | h | h | h | h <;> (unfold castValue; rw [h]) <;> rfl
  · unfold castValue
    rw [h]
    rfl
  · unfold castValue
    split
    all_goals first
      | (rw [hn])
      | (rename_i heq
         rw [heq] at h1 h2 h3
         simp [trueLiterals, falseLiterals] at h1 h2 h3)
  · unfold castValue
    split
    all_goals first
      | (rw [hn])
      | (rename_i heq
         rw [heq] at h1 h2 h3
         simp [trueLiterals, falseLiterals] at h1 h2 h3)

/-- C2 witness: the cast rule applied at concrete strings. -/
theorem cast_value_spec_witness :
    (strLower "YES" ∈ trueLiterals ∧ castValue "YES" = .vBool true) ∧
    (strLower "off" ∉ trueLiterals ∧ strLower "off" ∉ falseLiterals ∧ strLower "off" ≠ "null" ∧
      pyInt "off" = none ∧ castValue "off" = .vStr "off") :=
  ⟨⟨by decide, (cast_value_spec "YES").1 (by decide)⟩,
   ⟨by decide, by decide, by decide, rfl,
    ((cast_value_spec "off").2.2.2 (by decide) (by decide) (by decide)).2 rfl⟩⟩

/-- C3 counterexample: the nonempty input foo:bar does not carry a scheme://
prefix, yet on an empty registry the single-mode parse raises the
scheme-not-registered error for foo, whose message does not name the literal
input, instead of the malformed-input error the claim prescribes. -/
theorem scheme_colon_no_slashes_dispatches :
    ("foo:bar" : String) ≠ "" ∧
    hasSchemeSlashSlash "foo:bar" = false ∧
    svcEmpty.parseSingle "foo:bar" = .error (.validation "'foo://' scheme is not registered") ∧
    containsSubstrCh "'foo://' scheme is not registered".data "foo:bar".data = false :=
  ⟨by decide, rfl, rfl, rfl⟩

/-- C3 amended: the empty string parses to an empty mapping; a non-empty
string from which urlsplit extracts no scheme token raises a ValidationError
naming the literal input; a string with a scheme token but no registration
raises a ValidationError naming the offending scheme (a token followed by a
bare colon, without //, counts as a scheme and proceeds to the lookup);
otherwise the registered transform runs on (engine, scheme, url) and its
mapping is returned.  The conditions are mutually exclusive and exhaustive,
so each error is raised exactly when its condition holds. -/
theorem parse_single_spec (svc : Service) (data : String) :
    (data = "" → svc.parseSingle data = .ok []) ∧
    (data ≠ "" → (pyUrlsplit data).scheme = "" →
      svc.parseSingle data =
        .error (.validation
          (pyRepr data ++ " is invalid, only full dsn urls (scheme://host...) are allowed"))) ∧
    (data ≠ "" → (pyUrlsplit data).scheme ≠ "" →
      regLookup svc.schemes (pyUrlsplit data).scheme = none →
      svc.parseSingle data =
        .error (.validation
          (pyRepr ((pyUrlsplit data).scheme ++ "://") ++ " scheme is not registered"))) ∧
    (∀ reg, data ≠ "" → (pyUrlsplit data).scheme ≠ "" →
      regLookup svc.schemes (pyUrlsplit data).scheme = some reg →
      svc.parseSingle data = reg.callback reg.engine ((pyUrlsplit data).scheme) data) := by
  refine ⟨fun h => ?_, fun h hs => ?_, fun h hs hr => ?_, fun reg h hs hr => ?_⟩
  · simp [Service.parseSingle, h]
  · simp [Service.parseSingle, h, hs]
  · simp [Service.parseSingle, h, hs, hr]
  · simp [Service.parseSingle, h, hs, hr]

/-- C3 witness: the amended dispatch applied at concrete inputs on the demo
registry. -/
theorem parse_single_spec_witness :
    (("nourl" : String) ≠ "" ∧ (pyUrlsplit "nourl").scheme = "" ∧
      svcDb.parseSingle "nourl" =
        .error (.validation
          (pyRepr "nourl" ++ " is invalid, only full dsn urls (scheme://host...) are allowed"))) ∧
    (regLookup svcDb.schemes (pyUrlsplit "db://h/x").scheme =
        some ⟨"django.db.backends.postgresql", dbCallback⟩ ∧
      svcDb.parseSingle "db://h/x" =
        dbCallback "django.db.backends.postgresql" ((pyUrlsplit "db://h/x").scheme) "db://h/x") :=
  ⟨⟨by decide, rfl, (parse_single_spec svcDb "nourl").2.1 (by decide) rfl⟩,
   ⟨rfl, (parse_single_spec svcDb "db://h/x").2.2.2
      ⟨"django.db.backends.postgresql", dbCallback⟩ (by decide) (by decide) rfl⟩⟩

theorem strSplitChAux_length (sep : Char) :
    ∀ (cs acc : List Char),
      (strSplitChAux sep acc cs).length = cs.countP (fun x => x = sep) + 1 := by
  intro cs
  induction cs with
  | nil => intro acc; simp [strSplitChAux]
  | cons c rest ih =>
    intro acc
    by_cases h : c = sep
    · simp [strSplitChAux, h, ih, List.countP_cons]
    · simp [strSplitChAux, h, ih, List.countP_cons]

theorem containsCh_eq_countP (sep : Char) :
    ∀ cs : List Char, containsCh sep cs = true ↔ 0 < cs.countP (fun x => x = sep) := by
  intro cs
  induction cs with
  | nil => simp [containsCh]
  | cons c rest ih =>
    by_cases h : c = sep
    · simp [containsCh, h, List.countP_cons]
    · simp [containsCh, h, List.countP_cons, ih]

theorem contains_iff_split_length (sep : Char) (cs : List Char) :
    containsCh sep cs = true ↔ 1 < (strSplitCh sep cs).length := by
  rw [strSplitCh, strSplitChAux_length sep cs [], containsCh_eq_countP]
  omega

/-- C6: with multi-host mode requested, a netloc containing a comma makes the
location the verbatim list of comma-separated segments with hostname and port
both None; without a comma the location is the single netloc string and
hostname and port come from the normal netloc decomposition. -/
theorem multi_host_mode (s : String) :
    (containsCh ',' (pyUrlsplit s).netloc.data = true →
      ∃ info, parseUrl (.inl s) true = .ok info ∧
        info.location = .list ((strSplitCh ',' (pyUrlsplit s).netloc.data).map String.mk) ∧
        info.hostname = none ∧ info.port = none) ∧
    (containsCh ',' (pyUrlsplit s).netloc.data = false →
      ∀ hst p, getHostAndPort (pyUrlsplit s).netloc = .ok (hst, p) →
        ∃ info, parseUrl (.inl s) true = .ok info ∧
          info.location = .str (pyUrlsplit s).netloc ∧
          info.hostname = optTruthyUnquote (some hst) ∧ info.port = p) := by
  constructor
  · intro hc
    have hlen : 1 < ((strSplitCh ',' (pyUrlsplit s).netloc.data).map String.mk).length := by
      rw [List.length_map]
      exact (contains_iff_split_length ',' _).mp hc
    simp only [parseUrl, if_true, if_pos hlen, Except.map]
    exact ⟨_, rfl, rfl, rfl, rfl⟩
  · intro hc hst p hg
    have hlen : ¬ 1 < ((strSplitCh ',' (pyUrlsplit s).netloc.data).map String.mk).length := by
      rw [List.length_map]
      intro hl
      rw [(contains_iff_split_length ',' _).mpr hl] at hc
      cases hc
    simp only [parseUrl, if_true, if_neg hlen, hg, Except.map]
    exact ⟨_, rfl, rfl, rfl, rfl⟩

/-- C6 witness: the modes applied at the concrete URLs of the spec. -/
theorem multi_host_mode_witness :
    (containsCh ',' (pyUrlsplit "scheme://h1:1,h2:2/p").netloc.data = true ∧
      ∃ info, parseUrl (.inl "scheme://h1:1,h2:2/p") true = .ok info ∧
        info.location =
          .list ((strSplitCh ',' (pyUrlsplit "scheme://h1:1,h2:2/p").netloc.data).map String.mk) ∧
        info.hostname = none ∧ info.port = none) ∧
    (containsCh ',' (pyUrlsplit "scheme://host:1234/path").netloc.data = false ∧
      ∃ info, parseUrl (.inl "scheme://host:1234/path") true = .ok info ∧
        info.location = .str (pyUrlsplit "scheme://host:1234/path").netloc ∧
        info.hostname = optTruthyUnquote (some "host") ∧ info.port = some 1234) :=
  ⟨⟨rfl, (multi_host_mode "scheme://h1:1,h2:2/p").1 rfl⟩,
   ⟨rfl, (multi_host_mode "scheme://host:1234/path").2 rfl "host" (some 1234) rfl⟩⟩

theorem parseBatchGo_eq (svc : Service) :
    ∀ (entries : List (String × ConfigEntry)) (pAcc : List (String × ConfigDict))
      (eAcc : List (String × String)),
      (∀ p ∈ entries, outcomeEscapes svc p = false) →
      svc.parseBatchGo entries pAcc eAcc =
        (if (eAcc ++ entries.filterMap (entryErr svc)).isEmpty
         then .ok (pAcc ++ entries.filterMap (entryOk svc))
         else .error (.validationDict (eAcc ++ entries.filterMap (entryErr svc)))) := by
  intro entries
  induction entries with
  | nil =>
    intro pAcc eAcc _
    simp [Service.parseBatchGo]
  | cons p rest ih =>
    intro pAcc eAcc hesc
    obtain ⟨k, e⟩ := p
    have hrest : ∀ q ∈ rest, outcomeEscapes svc q = false :=
      fun q hq => hesc q (List.mem_cons_of_mem _ hq)
    cases e with
    | dict d =>
      simp only [Service.parseBatchGo]
      rw [ih (pAcc ++ [(k, d)]) eAcc hrest]
      have he : entryErr svc (k, ConfigEntry.dict d) = none := rfl
      have ho : entryOk svc (k, ConfigEntry.dict d) = some (k, d) := rfl
      simp [List.filterMap_cons, he, ho, List.append_assoc]
      rw [he]
    | str s =>
      have hout := hesc (k, .str s) (List.mem_cons_self _ _)
      simp only [Service.parseBatchGo]
      cases hps : svc.parseSingle s with
      | ok cfg =>
        change svc.parseBatchGo rest (pAcc ++ [(k, cfg)]) eAcc = _
        rw [ih (pAcc ++ [(k, cfg)]) eAcc hrest]
        have he : entryErr svc (k, ConfigEntry.str s) = none := by
          simp [entryErr, entryOutcome, hps]
        have ho : entryOk svc (k, ConfigEntry.str s) = some (k, cfg) := by
          simp [entryOk, entryOutcome, hps]
        simp [List.filterMap_cons, he, ho, List.append_assoc]
        rw [he]
      | error err =>
        have hv : err.isValidationErr = true := by
          simp [outcomeEscapes, entryOutcome, hps] at hout
          exact hout
        change (if err.isValidationErr = true then
            svc.parseBatchGo rest pAcc (eAcc ++ [(k, err.flatMessage)])
          else Except.error err) = _
        rw [if_pos hv]
        rw [ih pAcc (eAcc ++ [(k, err.flatMessage)]) hrest]
        have he : entryErr svc (k, ConfigEntry.str s) = some (k, err.flatMessage) := by
          simp [entryErr, entryOutcome, hps]
        have ho : entryOk svc (k, ConfigEntry.str s) = none := by
          simp [entryOk, entryOutcome, hps]
        simp [List.filterMap_cons, he, ho, List.append_assoc]

/-- C4: in batch mode, entries are handled in order — mapping values pass
through unchanged and string values are parsed individually; when one or more
entries fail with a ValidationError, the call raises a single aggregated
ValidationError whose key-to-message dict holds exactly the failing keys in
order and no partial mapping is returned; when no entry fails, the result
maps every key to its parsed or passed-through configuration.  The hypothesis
excludes entries whose failure is not a ValidationError (claim C10 covers
those escaping the aggregation). -/
theorem batch_parse_spec (svc : Service) (entries : List (String × ConfigEntry))
    (h : ∀ p ∈ entries, outcomeEscapes svc p = false) :
    svc.parse (.dict entries) = (batchSpec svc entries).map ParseOutput.batch := by
  simp only [Service.parse]
  rw [parseBatchGo_eq svc entries [] [] h]
  simp only [batchSpec, List.nil_append]

/-- C4 witness: the batch behaviour at a concrete registry and mapping with a
good URL, a pass-through dict and two entries broken in different ways. -/
theorem batch_parse_spec_witness :
    (∀ p ∈ batchDemoEntries, outcomeEscapes svcDb p = false) ∧
    svcDb.parse (.dict batchDemoEntries) =
      (batchSpec svcDb batchDemoEntries).map ParseOutput.batch ∧
    svcDb.parse (.dict batchDemoEntries) =
      .error (.validationDict
        [("bad", "'nourl' is invalid, only full dsn urls (scheme://host...) are allowed"),
         ("worse", "'foo://' scheme is not registered")]) :=
  ⟨by decide, batch_parse_spec svcDb batchDemoEntries (by decide), rfl⟩

end ServiceUrls
